import Mathlib

/-!
Verification of the Fokker-Planck PDE solver (`src/fokker_planck.py`).

The solver is embedded shallowly: numpy float64 arrays become `List ℚ`
(1D) and `List (List ℚ)` (2D) with exact rational arithmetic (floating
tolerance statements become exact equalities); the mutable numpy arrays
owned by a solver object are modelled by an explicit heap of arrays, so
that in-place mutation (`p += ...`, `p /= ...`), rebinding
(`p = np.maximum(p, 0)` allocates a fresh array) and snapshot copies
(`snapshots.append(p.copy())`) keep their aliasing behaviour.  Python
exceptions become `Except PyExc`.  Note that in ℚ a division by zero
yields 0 where numpy float division of 0.0 by 0.0 yields NaN with a
runtime warning and no exception: in both semantics the operation
completes without raising, which is the behaviour the claims depend on.
-/

namespace FokkerPlanck

/- Batteries marks the rational operations irreducible, which blocks the
elaborator from evaluating concrete states; restore the default so that
`decide` can evaluate witnesses and counterexamples.  (Proof terms are
unaffected: the kernel ignores reducibility attributes.) -/
attribute [local semireducible] Rat.add Rat.mul Rat.sub Rat.inv

instance {ε α : Type} [DecidableEq ε] [DecidableEq α] :
    DecidableEq (Except ε α)
  | .ok x, .ok y => decidable_of_iff (x = y) (by simp)
  | .ok _, .error _ => isFalse (fun h => Except.noConfusion h)
  | .error _, .ok _ => isFalse (fun h => Except.noConfusion h)
  | .error e, .error f => decidable_of_iff (e = f) (by simp)

/-- Exceptions.  The first four are the exceptions Python/numpy actually
raise in the source.  The last four are modelled from the spec: the spec's
error taxonomy (§7) names ConfigurationError, UninitializedStateError,
ShapeMismatchError and NumericalInstabilityError, but no such classes
exist anywhere in the repository; the constructors are present only so
that claims about them can be stated. -/
inductive PyExc where
  | typeError
  | valueError
  | indexError
  | zeroDivisionError
  | configurationError
  | uninitializedStateError
  | shapeMismatchError
  | numericalInstabilityError
deriving DecidableEq, Repr

/-- np.linspace(a, b, n): n evenly spaced points from a to b inclusive,
step (b-a)/(n-1).  For n = 1 numpy returns [a], which the formula also
yields here because ℚ division by zero is 0. -/
def linspace (a b : ℚ) (n : ℕ) : List ℚ :=
  (List.range n).map (fun i => a + (i : ℚ) * ((b - a) / ((n : ℚ) - 1)))

/-- np.gradient(f, dx) for a 1-D array: one-sided first-order differences
at the two ends, centered differences (f[i+1]-f[i-1])/(2 dx) in the
interior.  numpy raises for arrays of length < 2; every call site in the
source (and in this file's theorems) has length ≥ 2, where this
definition agrees with numpy exactly. -/
def npGradient (dx : ℚ) (f : List ℚ) : List ℚ :=
  (List.range f.length).map fun i =>
    if i = 0 then (f.getD 1 0 - f.getD 0 0) / dx
    else if i = f.length - 1 then
      (f.getD (f.length - 1) 0 - f.getD (f.length - 2) 0) / dx
    else (f.getD (i + 1) 0 - f.getD (i - 1) 0) / (2 * dx)

/-- Elementwise np.maximum(v, 0). -/
def clamp0 (l : List ℚ) : List ℚ := l.map (fun v => max v 0)

/-- State of a `FokkerPlanck1D` object (source lines 4-79).  Arrays live
in `heap`; `p` and the entries of `snapshots` are heap indices, so that
in-place mutation versus fresh allocation is explicit.  `stepCount` is a
ghost counter incremented exactly once per completed `step()` call; it
affects no other field and exists only to state call-count properties. -/
structure FP1D where
  A_func : ℚ → ℚ
  D_func : ℚ → ℚ
  x : List ℚ
  dx : ℚ
  dt : ℚ
  nt : ℕ
  snapshot_every : ℕ
  heap : List (List ℚ)
  snapshots : List ℕ
  times : List ℚ
  p : Option ℕ
  stepCount : ℕ

/-- The live density array (`self.p`), read from the heap. -/
def FP1D.density (s : FP1D) : List ℚ :=
  match s.p with
  | some i => s.heap.getD i []
  | none => []

/-- FokkerPlanck1D.__init__ (lines 5-39).  The drift and diffusion
callables are vectorized pointwise functions (`A_func(self.x)` maps over
the grid).  `self.dx = self.x[1] - self.x[0]` (line 32) raises IndexError
when nx < 2; no other argument is validated. -/
def mk1D (A D : ℚ → ℚ) (x_min x_max : ℚ) (nx : ℕ) (dt : ℚ)
    (nt snapshot_every : ℕ) : Except PyExc FP1D :=
  let xs := linspace x_min x_max nx
  if 2 ≤ nx then
    .ok { A_func := A, D_func := D, x := xs,
          dx := xs.getD 1 0 - xs.getD 0 0, dt := dt, nt := nt,
          snapshot_every := snapshot_every, heap := [], snapshots := [],
          times := [], p := none, stepCount := 0 }
  else .error .indexError

/-- The density before normalization in FokkerPlanck1D.initialize (lines
43-47): the default Gaussian, or the user field clamped to ≥ 0.  The user
initial-condition callable receives the whole grid and may return a list
of any length (no shape check exists in the source).  The default branch
exp(-x²/2)/√(2π) (line 44) is transcendental and has no rational
embedding; it is modelled by the parameter `gauss`, whose intended
positivity is carried as an explicit hypothesis where needed. -/
def initPre1D (gauss : ℚ → ℚ) (p0 : Option (List ℚ → List ℚ))
    (s : FP1D) : List ℚ :=
  match p0 with
  | none => s.x.map gauss
  | some f => clamp0 (f s.x)

/-- The normalizer np.sum(self.p * self.dx) of line 49. -/
def initNorm1D (gauss : ℚ → ℚ) (p0 : Option (List ℚ → List ℚ))
    (s : FP1D) : ℚ :=
  ((initPre1D gauss p0 s).map (· * s.dx)).sum

/-- FokkerPlanck1D.initialize (lines 41-51): build the density, normalize
it, allocate it as the live array, and seed `snapshots` with a fresh copy
and `times` with [0.0].  The source raises nothing here (np.maximum and
np.sum accept any shape), hence the result is always `.ok`. -/
def initialize1D (gauss : ℚ → ℚ) (p0 : Option (List ℚ → List ℚ))
    (s : FP1D) : Except PyExc FP1D :=
  let pv := (initPre1D gauss p0 s).map (· / initNorm1D gauss p0 s)
  .ok { s with heap := s.heap ++ [pv, pv], p := some s.heap.length,
               snapshots := [s.heap.length + 1], times := [0],
               stepCount := s.stepCount }

/-- dpdt of FokkerPlanck1D.step (lines 55-64): flux_drift = A*p,
flux_diff = -np.gradient(D*p, dx), dpdt = -np.gradient(flux_total, dx). -/
def dpdt1D (A D pA : List ℚ) (dx : ℚ) : List ℚ :=
  let flux_drift := List.zipWith (· * ·) A pA
  let flux_diff := (npGradient dx (List.zipWith (· * ·) D pA)).map Neg.neg
  let flux_total := List.zipWith (· + ·) flux_drift flux_diff
  (npGradient dx flux_total).map Neg.neg

/-- p after `self.p += self.dt * dpdt` (line 65). -/
def pUpdated1D (A D pA : List ℚ) (dx dt : ℚ) : List ℚ :=
  List.zipWith (· + ·) pA ((dpdt1D A D pA dx).map (dt * ·))

/-- p after `self.p = np.maximum(self.p, 0)` (line 66). -/
def pClamped1D (A D pA : List ℚ) (dx dt : ℚ) : List ℚ :=
  clamp0 (pUpdated1D A D pA dx dt)

/-- The renormalization divisor np.sum(self.p * self.dx) of line 67. -/
def clampNorm1D (A D pA : List ℚ) (dx dt : ℚ) : ℚ :=
  ((pClamped1D A D pA dx dt).map (· * dx)).sum

/-- p after `self.p /= np.sum(self.p * self.dx)` (line 67). -/
def pNext1D (A D pA : List ℚ) (dx dt : ℚ) : List ℚ :=
  (pClamped1D A D pA dx dt).map (· / clampNorm1D A D pA dx dt)

/-- FokkerPlanck1D.step (lines 53-67).  With `self.p` unset (`None`),
line 59 `A * self.p` raises TypeError.  With a density whose length
differs from the grid's, numpy broadcasting fails with ValueError (at
line 59 for lengths other than 1, at the in-place `+=` of line 65 for
length 1; in every case before any element of the live array changes).
Otherwise: `+=` mutates the live array in place, np.maximum allocates a
fresh array which `/=` then mutates in place, and the step completes —
including when the divisor is zero (numpy emits a warning and produces
non-finite values; here division by zero yields 0). -/
def stepResult1D (s : FP1D) (pi : ℕ) : FP1D :=
  let pA := s.heap.getD pi []
  let A := s.x.map s.A_func
  let D := s.x.map s.D_func
  { s with
    heap := (s.heap.set pi (pUpdated1D A D pA s.dx s.dt))
              ++ [pNext1D A D pA s.dx s.dt],
    p := some s.heap.length, stepCount := s.stepCount + 1 }

/-- Dispatch of FokkerPlanck1D.step: TypeError on a missing density,
ValueError on a shape mismatch, otherwise the completed step. -/
def step1D (s : FP1D) : Except PyExc FP1D :=
  match s.p with
  | none => .error .typeError
  | some pi =>
    if (s.heap.getD pi []).length = s.x.length then .ok (stepResult1D s pi)
    else .error .valueError

/-- The snapshot conditional in FokkerPlanck1D.solve (lines 73-75):
`if t % self.snapshot_every == 0`, then append a copy of the live density
(fresh heap cell) and the time t*dt.  `t % 0` raises ZeroDivisionError in
Python. -/
def record1D (t : ℕ) (s : FP1D) : Except PyExc FP1D :=
  if s.snapshot_every = 0 then .error .zeroDivisionError
  else if t % s.snapshot_every = 0 then
    .ok { s with heap := s.heap ++ [s.density],
                 snapshots := s.snapshots ++ [s.heap.length],
                 times := s.times ++ [(t : ℚ) * s.dt] }
  else .ok s

/-- The body of the loop of FokkerPlanck1D.solve over the given list of
step indices. -/
def solveLoop1D (s : FP1D) : List ℕ → Except PyExc FP1D
  | [] => .ok s
  | t :: ts => do
    let s1 ← step1D s
    let s2 ← record1D t s1
    solveLoop1D s2 ts

/-- FokkerPlanck1D.solve (lines 69-75): `for t in range(1, nt+1)`. -/
def solve1D (s : FP1D) : Except PyExc FP1D :=
  solveLoop1D s (List.range' 1 s.nt)

/-- FokkerPlanck1D.get_results (lines 77-79): the grid, times and the
snapshot arrays (dereferenced from the heap). -/
def get_results1D (s : FP1D) : List ℚ × List ℚ × List (List ℚ) :=
  (s.x, s.times, s.snapshots.map (fun i => s.heap.getD i []))

/-- n successive step() calls, stopping at the first exception. -/
def stepN1D : ℕ → FP1D → Except PyExc FP1D
  | 0, s => .ok s
  | n + 1, s =>
    match step1D s with
    | .ok s' => stepN1D n s'
    | .error e => .error e

/-- Heap well-formedness: every stored snapshot index is a live heap cell
and no snapshot aliases the current density array.  Established by
initialize and preserved by step and record. -/
def WF1D (s : FP1D) : Prop :=
  (∀ j ∈ s.snapshots, j < s.heap.length) ∧
  (∀ pi ∈ s.p.toList, pi < s.heap.length ∧ ∀ j ∈ s.snapshots, j ≠ pi)

instance (s : FP1D) : Decidable (WF1D s) := by
  unfold WF1D; infer_instance

/-! ## 2D solver -/

/-- A 2D numpy array of shape (n, m): a list of n rows of length m.
The first index follows axis 0, the second axis 1. -/
abbrev Mat := List (List ℚ)

/-- Elementwise binary operation on 2D arrays. -/
def mzip (f : ℚ → ℚ → ℚ) (a b : Mat) : Mat :=
  List.zipWith (List.zipWith f) a b

/-- Elementwise unary operation on a 2D array. -/
def mmap (f : ℚ → ℚ) (m : Mat) : Mat := m.map (List.map f)

/-- np.sum over a 2D array. -/
def msum (m : Mat) : ℚ := (m.map List.sum).sum

/-- Elementwise np.maximum(m, 0). -/
def mclamp0 (m : Mat) : Mat := mmap (fun v => max v 0) m

/-- One row of elementwise (a - b)/c. -/
def rowSubDiv (c : ℚ) (a b : List ℚ) : List ℚ :=
  List.zipWith (fun u v => (u - v) / c) a b

/-- np.gradient(m, dx, axis=0): the 1-D gradient stencil applied along
the first index, i.e. rowwise one-sided differences at the first and
last rows and centered differences in between.  Agrees with numpy for
rectangular arrays with ≥ 2 rows (numpy raises below that; all call
sites have ≥ 2 rows). -/
def gradAx0 (dx : ℚ) (m : Mat) : Mat :=
  (List.range m.length).map fun i =>
    if i = 0 then rowSubDiv dx (m.getD 1 []) (m.getD 0 [])
    else if i = m.length - 1 then
      rowSubDiv dx (m.getD (m.length - 1) []) (m.getD (m.length - 2) [])
    else rowSubDiv (2 * dx) (m.getD (i + 1) []) (m.getD (i - 1) [])

/-- np.gradient(m, dy, axis=1): the 1-D stencil within each row. -/
def gradAx1 (dy : ℚ) (m : Mat) : Mat := m.map (npGradient dy)

/-- State of a `FokkerPlanck2D` object (source lines 82-164), with the
same heap/ghost-counter conventions as `FP1D`. -/
structure FP2D where
  Ax_func : ℚ → ℚ → ℚ
  Ay_func : ℚ → ℚ → ℚ
  Dx_func : ℚ → ℚ → ℚ
  Dy_func : ℚ → ℚ → ℚ
  x : List ℚ
  y : List ℚ
  dx : ℚ
  dy : ℚ
  X : Mat
  Y : Mat
  dt : ℚ
  nt : ℕ
  snapshot_every : ℕ
  heap : List Mat
  snapshots : List ℕ
  times : List ℚ
  p : Option ℕ
  stepCount : ℕ

/-- The live density array (`self.p`). -/
def FP2D.density (s : FP2D) : Mat :=
  match s.p with
  | some i => s.heap.getD i []
  | none => []

/-- Evaluate a pointwise field function on the stored meshes X, Y
(`f(self.X, self.Y)` for a vectorized f). -/
def meshApply (f : ℚ → ℚ → ℚ) (X Y : Mat) : Mat := mzip f X Y

/-- FokkerPlanck2D.__init__ (lines 83-121).  X, Y = np.meshgrid(x, y,
indexing='ij'), so X[i][j] = x[i] and Y[i][j] = y[j].  Lines 111-112
(`x[1]-x[0]`, `y[1]-y[0]`) raise IndexError when nx < 2 or ny < 2; no
other argument is validated. -/
def mk2D (Ax Ay Dx Dy : ℚ → ℚ → ℚ) (x_min x_max : ℚ) (nx : ℕ)
    (y_min y_max : ℚ) (ny : ℕ) (dt : ℚ) (nt snapshot_every : ℕ) :
    Except PyExc FP2D :=
  let xs := linspace x_min x_max nx
  let ys := linspace y_min y_max ny
  if 2 ≤ nx ∧ 2 ≤ ny then
    .ok { Ax_func := Ax, Ay_func := Ay, Dx_func := Dx, Dy_func := Dy,
          x := xs, y := ys,
          dx := xs.getD 1 0 - xs.getD 0 0,
          dy := ys.getD 1 0 - ys.getD 0 0,
          X := xs.map (fun xi => List.replicate ny xi),
          Y := List.replicate nx ys,
          dt := dt, nt := nt, snapshot_every := snapshot_every,
          heap := [], snapshots := [], times := [], p := none,
          stepCount := 0 }
  else .error .indexError

/-- The density before normalization in FokkerPlanck2D.initialize (lines
125-129): the default Gaussian exp(-(X²+Y²)/2) (line 126, transcendental,
modelled by the parameter `gauss` as in 1D, here unclamped as in the
source), or the user field clamped to ≥ 0. -/
def initPre2D (gauss : ℚ → ℚ → ℚ) (p0 : Option (Mat → Mat → Mat))
    (s : FP2D) : Mat :=
  match p0 with
  | none => meshApply gauss s.X s.Y
  | some f => mclamp0 (f s.X s.Y)

/-- The normalizer np.sum(self.p) * self.dx * self.dy of line 131. -/
def initNorm2D (gauss : ℚ → ℚ → ℚ) (p0 : Option (Mat → Mat → Mat))
    (s : FP2D) : ℚ :=
  msum (initPre2D gauss p0 s) * s.dx * s.dy

/-- FokkerPlanck2D.initialize (lines 123-133); raises nothing. -/
def initialize2D (gauss : ℚ → ℚ → ℚ) (p0 : Option (Mat → Mat → Mat))
    (s : FP2D) : Except PyExc FP2D :=
  let pv := mmap (· / initNorm2D gauss p0 s) (initPre2D gauss p0 s)
  .ok { s with heap := s.heap ++ [pv, pv], p := some s.heap.length,
               snapshots := [s.heap.length + 1], times := [0],
               stepCount := s.stepCount }

/-- dpdt of FokkerPlanck2D.step (lines 137-148):
flux_x = Ax*p - gradAx0(Dx*p), flux_y = Ay*p - gradAx1(Dy*p),
dpdt = -gradAx0(flux_x) - gradAx1(flux_y). -/
def dpdt2D (Ax Ay Dx Dy pA : Mat) (dx dy : ℚ) : Mat :=
  let flux_x := mzip (· - ·) (mzip (· * ·) Ax pA) (gradAx0 dx (mzip (· * ·) Dx pA))
  let flux_y := mzip (· - ·) (mzip (· * ·) Ay pA) (gradAx1 dy (mzip (· * ·) Dy pA))
  mzip (· - ·) (mmap Neg.neg (gradAx0 dx flux_x)) (gradAx1 dy flux_y)

/-- p after `self.p += self.dt * dpdt` (line 150). -/
def pUpdated2D (Ax Ay Dx Dy pA : Mat) (dx dy dt : ℚ) : Mat :=
  mzip (· + ·) pA (mmap (dt * ·) (dpdt2D Ax Ay Dx Dy pA dx dy))

/-- p after `self.p = np.maximum(self.p, 0)` (line 151). -/
def pClamped2D (Ax Ay Dx Dy pA : Mat) (dx dy dt : ℚ) : Mat :=
  mclamp0 (pUpdated2D Ax Ay Dx Dy pA dx dy dt)

/-- The renormalization divisor np.sum(self.p) * self.dx * self.dy of
line 152. -/
def clampNorm2D (Ax Ay Dx Dy pA : Mat) (dx dy dt : ℚ) : ℚ :=
  msum (pClamped2D Ax Ay Dx Dy pA dx dy dt) * dx * dy

/-- p after `self.p /= np.sum(self.p) * self.dx * self.dy` (line 152). -/
def pNext2D (Ax Ay Dx Dy pA : Mat) (dx dy dt : ℚ) : Mat :=
  mmap (· / clampNorm2D Ax Ay Dx Dy pA dx dy dt)
    (pClamped2D Ax Ay Dx Dy pA dx dy dt)

/-- Whether a 2D array has exactly the grid's shape (nx, ny). -/
def shapeOK (nx ny : ℕ) (m : Mat) : Prop :=
  m.length = nx ∧ ∀ r ∈ m, r.length = ny

instance (nx ny : ℕ) (m : Mat) : Decidable (shapeOK nx ny m) := by
  unfold shapeOK; infer_instance

/-- FokkerPlanck2D.step (lines 135-152).  As in 1D: TypeError on a
missing density; for a density whose shape differs from (nx, ny) numpy
broadcasting fails with ValueError before any element of the live array
changes (at the flux products for incompatible shapes, at latest at the
in-place `+=` of line 150 whose output shape is fixed); otherwise the
step completes, even with a zero divisor. -/
def stepResult2D (s : FP2D) (pi : ℕ) : FP2D :=
  let pA := s.heap.getD pi []
  let Ax := meshApply s.Ax_func s.X s.Y
  let Ay := meshApply s.Ay_func s.X s.Y
  let Dx := meshApply s.Dx_func s.X s.Y
  let Dy := meshApply s.Dy_func s.X s.Y
  { s with
    heap := (s.heap.set pi (pUpdated2D Ax Ay Dx Dy pA s.dx s.dy s.dt))
              ++ [pNext2D Ax Ay Dx Dy pA s.dx s.dy s.dt],
    p := some s.heap.length, stepCount := s.stepCount + 1 }

/-- Dispatch of FokkerPlanck2D.step. -/
def step2D (s : FP2D) : Except PyExc FP2D :=
  match s.p with
  | none => .error .typeError
  | some pi =>
    if shapeOK s.x.length s.y.length (s.heap.getD pi []) then
      .ok (stepResult2D s pi)
    else .error .valueError

/-- The snapshot conditional in FokkerPlanck2D.solve (lines 158-160). -/
def record2D (t : ℕ) (s : FP2D) : Except PyExc FP2D :=
  if s.snapshot_every = 0 then .error .zeroDivisionError
  else if t % s.snapshot_every = 0 then
    .ok { s with heap := s.heap ++ [s.density],
                 snapshots := s.snapshots ++ [s.heap.length],
                 times := s.times ++ [(t : ℚ) * s.dt] }
  else .ok s

/-- The body of the loop of FokkerPlanck2D.solve. -/
def solveLoop2D (s : FP2D) : List ℕ → Except PyExc FP2D
  | [] => .ok s
  | t :: ts => do
    let s1 ← step2D s
    let s2 ← record2D t s1
    solveLoop2D s2 ts

/-- FokkerPlanck2D.solve (lines 154-160). -/
def solve2D (s : FP2D) : Except PyExc FP2D :=
  solveLoop2D s (List.range' 1 s.nt)

/-- FokkerPlanck2D.get_results (lines 162-164). -/
def get_results2D (s : FP2D) : Mat × Mat × List ℚ × List Mat :=
  (s.X, s.Y, s.times, s.snapshots.map (fun i => s.heap.getD i []))

/-! ## General lemmas -/

lemma sum_map_mul (l : List ℚ) (c : ℚ) : (l.map (· * c)).sum = l.sum * c := by
  induction l with
  | nil => simp
  | cons a t ih => simp [ih, add_mul]

lemma sum_map_div (l : List ℚ) (c : ℚ) : (l.map (· / c)).sum = l.sum / c := by
  induction l with
  | nil => simp
  | cons a t ih => simp [ih, add_div]

lemma msum_mmap_div (m : Mat) (c : ℚ) : msum (mmap (· / c) m) = msum m / c := by
  induction m with
  | nil => simp [msum, mmap]
  | cons r t ih =>
      simp only [msum, mmap, List.map_cons, List.sum_cons] at ih ⊢
      rw [sum_map_div, ih, add_div]

lemma clamp0_nonneg (l : List ℚ) : ∀ a ∈ clamp0 l, 0 ≤ a := by
  intro a ha
  simp only [clamp0, List.mem_map] at ha
  obtain ⟨b, _, rfl⟩ := ha
  exact le_max_right b 0

lemma map_div_nonneg (l : List ℚ) (S : ℚ) (hl : ∀ a ∈ l, 0 ≤ a)
    (hS : 0 ≤ S) : ∀ a ∈ l.map (· / S), 0 ≤ a := by
  intro a ha
  simp only [List.mem_map] at ha
  obtain ⟨b, hb, rfl⟩ := ha
  exact div_nonneg (hl b hb) hS

/-- Renormalization in the 1D form `p /= np.sum(p * dx)`: afterwards the
mass sum(p)·dx is exactly 1, provided the divisor is positive. -/
lemma normalize_mass (l : List ℚ) (dx : ℚ)
    (hS : 0 < (l.map (· * dx)).sum) :
    (l.map (· / (l.map (· * dx)).sum)).sum * dx = 1 := by
  have hC : (l.map (· * dx)).sum = l.sum * dx := sum_map_mul l dx
  have hne : l.sum * dx ≠ 0 := by rw [← hC]; exact ne_of_gt hS
  rw [sum_map_div, hC, div_mul_eq_mul_div, div_self hne]

/-- Renormalization in the 2D form `p /= np.sum(p) * dx * dy`. -/
lemma normalize2_mass (m : Mat) (dx dy : ℚ)
    (hS : 0 < msum m * dx * dy) :
    msum (mmap (· / (msum m * dx * dy)) m) * dx * dy = 1 := by
  have hne : msum m * dx * dy ≠ 0 := ne_of_gt hS
  rw [msum_mmap_div, div_mul_eq_mul_div, div_mul_eq_mul_div, div_self hne]

lemma zipWith_mem {α β γ : Type} (f : α → β → γ) (P : γ → Prop)
    (h : ∀ x y, P (f x y)) :
    ∀ (a : List α) (b : List β), ∀ c ∈ List.zipWith f a b, P c := by
  intro a
  induction a with
  | nil => intro b c hc; simp at hc
  | cons x t ih =>
      intro b c hc
      cases b with
      | nil => simp at hc
      | cons y u =>
          simp only [List.zipWith_cons_cons, List.mem_cons] at hc
          rcases hc with rfl | hc
          · exact h x y
          · exact ih u c hc

lemma mclamp0_nonneg (m : Mat) : ∀ r ∈ mclamp0 m, ∀ a ∈ r, 0 ≤ a := by
  intro r hr
  simp only [mclamp0, mmap, List.mem_map] at hr
  obtain ⟨q, _, rfl⟩ := hr
  exact clamp0_nonneg q

lemma mmap_div_nonneg (m : Mat) (S : ℚ) (hm : ∀ r ∈ m, ∀ a ∈ r, 0 ≤ a)
    (hS : 0 ≤ S) : ∀ r ∈ mmap (· / S) m, ∀ a ∈ r, 0 ≤ a := by
  intro r hr
  simp only [mmap, List.mem_map] at hr
  obtain ⟨q, hq, rfl⟩ := hr
  exact map_div_nonneg q S (hm q hq) hS

/-- Reading the freshly appended cell of a heap. -/
lemma getD_append_self {α : Type} (l : List α) (a b d : α) :
    (l ++ [a, b]).getD l.length d = a := by
  rw [List.getD_append_right l [a, b] d l.length le_rfl]
  simp

lemma getD_append_one {α : Type} (l : List α) (a d : α) :
    (l ++ [a]).getD l.length d = a := by
  rw [List.getD_append_right l [a] d l.length le_rfl]
  simp

lemma getD_append_succ {α : Type} (l : List α) (a b d : α) :
    (l ++ [a, b]).getD (l.length + 1) d = b := by
  rw [List.getD_append_right l [a, b] d (l.length + 1) (Nat.le_succ _)]
  simp

lemma getD_append_lt {α : Type} (l l' : List α) (d : α) (n : ℕ)
    (h : n < l.length) : (l ++ l').getD n d = l.getD n d :=
  List.getD_append l l' d n h

lemma getD_set_ne {α : Type} (l : List α) (i j : ℕ) (a d : α)
    (h : j ≠ i) : (l.set i a).getD j d = l.getD j d := by
  rw [List.getD_eq_getElem?_getD, List.getD_eq_getElem?_getD,
    List.getElem?_set_ne (fun he => h he.symm)]

/-! ## Inversion and projection lemmas for the solver operations -/

lemma step1D_ok_inv {s s' : FP1D} (h : step1D s = .ok s') :
    ∃ pi, s.p = some pi ∧ (s.heap.getD pi []).length = s.x.length ∧
      s' = stepResult1D s pi := by
  cases hp : s.p with
  | none => rw [step1D, hp] at h; exact Except.noConfusion h
  | some pi =>
      rw [step1D, hp] at h
      dsimp only at h
      by_cases hl : (s.heap.getD pi []).length = s.x.length
      · rw [if_pos hl] at h
        exact ⟨pi, rfl, hl, (Except.ok.inj h).symm⟩
      · rw [if_neg hl] at h; exact Except.noConfusion h

lemma step2D_ok_inv {s s' : FP2D} (h : step2D s = .ok s') :
    ∃ pi, s.p = some pi ∧ shapeOK s.x.length s.y.length (s.heap.getD pi []) ∧
      s' = stepResult2D s pi := by
  cases hp : s.p with
  | none => rw [step2D, hp] at h; exact Except.noConfusion h
  | some pi =>
      rw [step2D, hp] at h
      dsimp only at h
      by_cases hl : shapeOK s.x.length s.y.length (s.heap.getD pi [])
      · rw [if_pos hl] at h
        exact ⟨pi, rfl, hl, (Except.ok.inj h).symm⟩
      · rw [if_neg hl] at h; exact Except.noConfusion h

lemma stepResult1D_density (s : FP1D) (pi : ℕ) :
    (stepResult1D s pi).density =
      pNext1D (s.x.map s.A_func) (s.x.map s.D_func) (s.heap.getD pi [])
        s.dx s.dt := by
  have hlen : (s.heap.set pi
      (pUpdated1D (s.x.map s.A_func) (s.x.map s.D_func)
        (s.heap.getD pi []) s.dx s.dt)).length = s.heap.length :=
    List.length_set s.heap pi _
  show (s.heap.set pi _ ++ [_]).getD s.heap.length [] = _
  rw [← hlen, getD_append_one]

lemma stepResult2D_density (s : FP2D) (pi : ℕ) :
    (stepResult2D s pi).density =
      pNext2D (meshApply s.Ax_func s.X s.Y) (meshApply s.Ay_func s.X s.Y)
        (meshApply s.Dx_func s.X s.Y) (meshApply s.Dy_func s.X s.Y)
        (s.heap.getD pi []) s.dx s.dy s.dt := by
  have hlen : (s.heap.set pi
      (pUpdated2D (meshApply s.Ax_func s.X s.Y) (meshApply s.Ay_func s.X s.Y)
        (meshApply s.Dx_func s.X s.Y) (meshApply s.Dy_func s.X s.Y)
        (s.heap.getD pi []) s.dx s.dy s.dt)).length = s.heap.length :=
    List.length_set s.heap pi _
  show (s.heap.set pi _ ++ [_]).getD s.heap.length [] = _
  rw [← hlen, getD_append_one]

lemma initialize1D_ok (gauss : ℚ → ℚ) (p0 : Option (List ℚ → List ℚ))
    (s s' : FP1D) (h : initialize1D gauss p0 s = .ok s') :
    s' = { s with
           heap := s.heap ++
             [(initPre1D gauss p0 s).map (· / initNorm1D gauss p0 s),
              (initPre1D gauss p0 s).map (· / initNorm1D gauss p0 s)],
           p := some s.heap.length, snapshots := [s.heap.length + 1],
           times := [0], stepCount := s.stepCount } :=
  (Except.ok.inj h).symm

lemma initialize1D_density (gauss : ℚ → ℚ) (p0 : Option (List ℚ → List ℚ))
    (s s' : FP1D) (h : initialize1D gauss p0 s = .ok s') :
    s'.density = (initPre1D gauss p0 s).map (· / initNorm1D gauss p0 s) := by
  rw [initialize1D_ok gauss p0 s s' h]
  show (s.heap ++ [_, _]).getD s.heap.length [] = _
  rw [getD_append_self]

lemma initialize2D_ok (gauss : ℚ → ℚ → ℚ) (p0 : Option (Mat → Mat → Mat))
    (s s' : FP2D) (h : initialize2D gauss p0 s = .ok s') :
    s' = { s with
           heap := s.heap ++
             [mmap (· / initNorm2D gauss p0 s) (initPre2D gauss p0 s),
              mmap (· / initNorm2D gauss p0 s) (initPre2D gauss p0 s)],
           p := some s.heap.length, snapshots := [s.heap.length + 1],
           times := [0], stepCount := s.stepCount } :=
  (Except.ok.inj h).symm

lemma initialize2D_density (gauss : ℚ → ℚ → ℚ) (p0 : Option (Mat → Mat → Mat))
    (s s' : FP2D) (h : initialize2D gauss p0 s = .ok s') :
    s'.density = mmap (· / initNorm2D gauss p0 s) (initPre2D gauss p0 s) := by
  rw [initialize2D_ok gauss p0 s s' h]
  show (s.heap ++ [_, _]).getD s.heap.length [] = _
  rw [getD_append_self]

/-! ## Invariant lemmas for claim C1 -/

lemma initPre1D_nonneg (gauss : ℚ → ℚ) (p0 : Option (List ℚ → List ℚ))
    (s : FP1D) (hg : ∀ q, 0 ≤ gauss q) :
    ∀ a ∈ initPre1D gauss p0 s, 0 ≤ a := by
  cases p0 with
  | none =>
      intro a ha
      simp only [initPre1D, List.mem_map] at ha
      obtain ⟨b, _, rfl⟩ := ha
      exact hg b
  | some f => exact clamp0_nonneg _

lemma initPre2D_nonneg (gauss : ℚ → ℚ → ℚ) (p0 : Option (Mat → Mat → Mat))
    (s : FP2D) (hg : ∀ u v, 0 ≤ gauss u v) :
    ∀ r ∈ initPre2D gauss p0 s, ∀ a ∈ r, 0 ≤ a := by
  cases p0 with
  | none =>
      intro r hr
      exact zipWith_mem (List.zipWith gauss) (fun q => ∀ a ∈ q, 0 ≤ a)
        (fun xr yr => zipWith_mem gauss (fun c => 0 ≤ c) hg xr yr)
        s.X s.Y r hr
  | some f => exact mclamp0_nonneg _

lemma init1D_inv (gauss : ℚ → ℚ) (p0 : Option (List ℚ → List ℚ))
    (s s' : FP1D) (h : initialize1D gauss p0 s = .ok s')
    (hg : ∀ q, 0 ≤ gauss q) (hS : 0 < initNorm1D gauss p0 s) :
    (∀ a ∈ s'.density, 0 ≤ a) ∧ s'.density.sum * s'.dx = 1 := by
  have hd := initialize1D_density gauss p0 s s' h
  have hdx : s'.dx = s.dx := by rw [initialize1D_ok gauss p0 s s' h]
  rw [hd, hdx]
  refine ⟨map_div_nonneg _ _ (initPre1D_nonneg gauss p0 s hg) hS.le, ?_⟩
  rw [initNorm1D] at hS ⊢
  exact normalize_mass _ _ hS

lemma step1D_inv (s s' : FP1D) (h : step1D s = .ok s')
    (hS : 0 < clampNorm1D (s.x.map s.A_func) (s.x.map s.D_func)
            s.density s.dx s.dt) :
    (∀ a ∈ s'.density, 0 ≤ a) ∧ s'.density.sum * s'.dx = 1 := by
  obtain ⟨pi, hp, hl, rfl⟩ := step1D_ok_inv h
  have hden : s.density = s.heap.getD pi [] := by
    unfold FP1D.density; rw [hp]
  rw [hden] at hS
  rw [stepResult1D_density]
  have hdx : (stepResult1D s pi).dx = s.dx := rfl
  rw [hdx]
  refine ⟨?_, ?_⟩
  · simp only [pNext1D]
    exact map_div_nonneg _ _ (clamp0_nonneg _) hS.le
  · simp only [pNext1D, clampNorm1D] at hS ⊢
    exact normalize_mass _ _ hS

lemma init2D_inv (gauss : ℚ → ℚ → ℚ) (p0 : Option (Mat → Mat → Mat))
    (s s' : FP2D) (h : initialize2D gauss p0 s = .ok s')
    (hg : ∀ u v, 0 ≤ gauss u v) (hS : 0 < initNorm2D gauss p0 s) :
    (∀ r ∈ s'.density, ∀ a ∈ r, 0 ≤ a) ∧
      msum s'.density * s'.dx * s'.dy = 1 := by
  have hd := initialize2D_density gauss p0 s s' h
  have hdx : s'.dx = s.dx := by rw [initialize2D_ok gauss p0 s s' h]
  have hdy : s'.dy = s.dy := by rw [initialize2D_ok gauss p0 s s' h]
  rw [hd, hdx, hdy]
  refine ⟨mmap_div_nonneg _ _ (initPre2D_nonneg gauss p0 s hg) hS.le, ?_⟩
  rw [initNorm2D] at hS ⊢
  exact normalize2_mass _ _ _ hS

lemma step2D_inv (s s' : FP2D) (h : step2D s = .ok s')
    (hS : 0 < clampNorm2D (meshApply s.Ax_func s.X s.Y)
            (meshApply s.Ay_func s.X s.Y) (meshApply s.Dx_func s.X s.Y)
            (meshApply s.Dy_func s.X s.Y) s.density s.dx s.dy s.dt) :
    (∀ r ∈ s'.density, ∀ a ∈ r, 0 ≤ a) ∧
      msum s'.density * s'.dx * s'.dy = 1 := by
  obtain ⟨pi, hp, hl, rfl⟩ := step2D_ok_inv h
  have hden : s.density = s.heap.getD pi [] := by
    unfold FP2D.density; rw [hp]
  rw [hden] at hS
  rw [stepResult2D_density]
  have hdx : (stepResult2D s pi).dx = s.dx := rfl
  have hdy : (stepResult2D s pi).dy = s.dy := rfl
  rw [hdx, hdy]
  refine ⟨?_, ?_⟩
  · simp only [pNext2D]
    exact mmap_div_nonneg _ _ (mclamp0_nonneg _) hS.le
  · simp only [pNext2D, clampNorm2D] at hS ⊢
    exact normalize2_mass _ _ _ hS

/-! ## Concrete states for witnesses and counterexamples -/

/-- Fallback state used only to extract successful results by name. -/
def fp1d0 : FP1D :=
  { A_func := fun _ => 0, D_func := fun _ => 0, x := [], dx := 0, dt := 0,
    nt := 0, snapshot_every := 0, heap := [], snapshots := [], times := [],
    p := none, stepCount := 0 }

def fp2d0 : FP2D :=
  { Ax_func := fun _ _ => 0, Ay_func := fun _ _ => 0,
    Dx_func := fun _ _ => 0, Dy_func := fun _ _ => 0, x := [], y := [],
    dx := 0, dy := 0, X := [], Y := [], dt := 0, nt := 0,
    snapshot_every := 0, heap := [], snapshots := [], times := [],
    p := none, stepCount := 0 }

def getOk1D (d : FP1D) : Except PyExc FP1D → FP1D
  | .ok s => s
  | .error _ => d

def getOk2D (d : FP2D) : Except PyExc FP2D → FP2D
  | .ok s => s
  | .error _ => d

/-- A small healthy 1D run: zero drift and diffusion on a 2-point grid
over [0, 1], dt = 1, user initial condition [1, 1]. -/
def c1wBase : FP1D := getOk1D fp1d0 (mk1D (fun _ => 0) (fun _ => 0) 0 1 2 1 1 1)

def c1wInit : FP1D :=
  getOk1D fp1d0 (initialize1D (fun _ => 1) (some (fun _ => [1, 1])) c1wBase)

def c1wStep : FP1D := getOk1D fp1d0 (step1D c1wInit)

/-- A small healthy 2D run on a 2×2 grid over [0,1]². -/
def c1wBase2 : FP2D :=
  getOk2D fp2d0 (mk2D (fun _ _ => 0) (fun _ _ => 0) (fun _ _ => 0)
    (fun _ _ => 0) 0 1 2 0 1 2 1 1 1)

def c1wInit2 : FP2D :=
  getOk2D fp2d0 (initialize2D (fun _ _ => 1)
    (some (fun _ _ => [[1, 1], [1, 1]])) c1wBase2)

def c1wStep2 : FP2D := getOk2D fp2d0 (step2D c1wInit2)

/-- Mass observation sum(p)·dx of a 1D run. -/
def obsMass1D (r : Except PyExc FP1D) : Except PyExc ℚ :=
  r.map (fun s => s.density.sum * s.dx)

/-- A valid configuration (nx = 2 ≥ 2, dt = 1 > 0, nt = 1 ≥ 1) with
drift 1, diffusion 0 and initial condition [0, 1]: one step drives the
whole density negative, the clamp zeroes it, and the renormalization
divides by zero — the step still completes. -/
def c1xRun : Except PyExc FP1D :=
  ((mk1D (fun _ => 1) (fun _ => 0) 0 1 2 1 1 1).bind
    (initialize1D (fun _ => 1) (some (fun _ => [0, 1])))).bind step1D

/-! ## Claim C1 -/

/-- C1 (amended): for every configuration, immediately after initialize()
and after every completed step() of FokkerPlanck1D and FokkerPlanck2D,
provided the renormalization divisor (np.sum(p*dx) resp. np.sum(p)·dx·dy
of the about-to-be-normalized density) is positive — and, for the default
initial condition, that the default Gaussian is nonnegative, as exp is —
every element of the density p is ≥ 0 and sum(p)·cell volume equals 1
exactly.  (The unamended claim is refuted by `claim_C1_counterexample`:
a valid configuration can zero the whole density after the clamp, and the
step still completes with unnormalized mass.) -/
theorem claim_C1_amended :
    (∀ (gauss : ℚ → ℚ) (p0 : Option (List ℚ → List ℚ)) (s s' : FP1D),
        initialize1D gauss p0 s = .ok s' → (∀ q, 0 ≤ gauss q) →
        0 < initNorm1D gauss p0 s →
        (∀ a ∈ s'.density, 0 ≤ a) ∧ s'.density.sum * s'.dx = 1) ∧
    (∀ (s s' : FP1D), step1D s = .ok s' →
        0 < clampNorm1D (s.x.map s.A_func) (s.x.map s.D_func)
              s.density s.dx s.dt →
        (∀ a ∈ s'.density, 0 ≤ a) ∧ s'.density.sum * s'.dx = 1) ∧
    (∀ (gauss : ℚ → ℚ → ℚ) (p0 : Option (Mat → Mat → Mat)) (s s' : FP2D),
        initialize2D gauss p0 s = .ok s' → (∀ u v, 0 ≤ gauss u v) →
        0 < initNorm2D gauss p0 s →
        (∀ r ∈ s'.density, ∀ a ∈ r, 0 ≤ a) ∧
          msum s'.density * s'.dx * s'.dy = 1) ∧
    (∀ (s s' : FP2D), step2D s = .ok s' →
        0 < clampNorm2D (meshApply s.Ax_func s.X s.Y)
              (meshApply s.Ay_func s.X s.Y) (meshApply s.Dx_func s.X s.Y)
              (meshApply s.Dy_func s.X s.Y) s.density s.dx s.dy s.dt →
        (∀ r ∈ s'.density, ∀ a ∈ r, 0 ≤ a) ∧
          msum s'.density * s'.dx * s'.dy = 1) :=
  ⟨init1D_inv, step1D_inv, init2D_inv, step2D_inv⟩

/-- C1 is false as stated: at the valid configuration of `c1xRun` the
first step() completes (result is `.ok`, not an error) yet the total mass
sum(p)·dx afterwards is 0, not 1 (in float arithmetic: NaN). -/
theorem claim_C1_counterexample :
    obsMass1D c1xRun = .ok 0 ∧ (0 : ℚ) ≠ 1 := ⟨by decide, by decide⟩

theorem claim_C1_witness :
    ((∀ a ∈ c1wInit.density, 0 ≤ a) ∧
      c1wInit.density.sum * c1wInit.dx = 1) ∧
    ((∀ a ∈ c1wStep.density, 0 ≤ a) ∧
      c1wStep.density.sum * c1wStep.dx = 1) ∧
    ((∀ r ∈ c1wInit2.density, ∀ a ∈ r, 0 ≤ a) ∧
      msum c1wInit2.density * c1wInit2.dx * c1wInit2.dy = 1) ∧
    ((∀ r ∈ c1wStep2.density, ∀ a ∈ r, 0 ≤ a) ∧
      msum c1wStep2.density * c1wStep2.dx * c1wStep2.dy = 1) :=
  ⟨claim_C1_amended.1 (fun _ => 1) (some (fun _ => [1, 1])) c1wBase c1wInit
      rfl (fun _ => zero_le_one) (by decide),
   claim_C1_amended.2.1 c1wInit c1wStep rfl (by decide),
   claim_C1_amended.2.2.1 (fun _ _ => 1) (some (fun _ _ => [[1, 1], [1, 1]]))
      c1wBase2 c1wInit2 rfl (fun _ _ => zero_le_one) (by decide),
   claim_C1_amended.2.2.2 c1wInit2 c1wStep2 rfl (by decide)⟩

/-! ## Claim C2: the step pipeline, as worded by the spec -/

/-- Per-axis flux as the spec words it: drift·p minus the
centered-difference gradient of diffusion·p along the axis. -/
def specFlux1D (A D p : List ℚ) (dx : ℚ) : List ℚ :=
  List.zipWith (· - ·) (List.zipWith (· * ·) A p)
    (npGradient dx (List.zipWith (· * ·) D p))

/-- dpdt as the spec words it: the negative of the sum over axes of the
gradient of each axis flux (one axis in 1D). -/
def specDpdt1D (A D p : List ℚ) (dx : ℚ) : List ℚ :=
  (npGradient dx (specFlux1D A D p dx)).map Neg.neg

/-- One spec-worded step: update p + dt·dpdt, clamp elementwise to
max(p, 0), divide by sum(p) times the cell volume dx. -/
def specStep1D (A D p : List ℚ) (dx dt : ℚ) : List ℚ :=
  let updated := List.zipWith (· + ·) p ((specDpdt1D A D p dx).map (dt * ·))
  let clamped := clamp0 updated
  clamped.map (· / (clamped.sum * dx))

def specFluxX (Ax Dx p : Mat) (dx : ℚ) : Mat :=
  mzip (· - ·) (mzip (· * ·) Ax p) (gradAx0 dx (mzip (· * ·) Dx p))

def specFluxY (Ay Dy p : Mat) (dy : ℚ) : Mat :=
  mzip (· - ·) (mzip (· * ·) Ay p) (gradAx1 dy (mzip (· * ·) Dy p))

/-- dpdt as the spec words it in 2D: the negative of the sum over the two
axes of each axis flux's gradient. -/
def specDpdt2D (Ax Ay Dx Dy p : Mat) (dx dy : ℚ) : Mat :=
  mmap Neg.neg (mzip (· + ·) (gradAx0 dx (specFluxX Ax Dx p dx))
    (gradAx1 dy (specFluxY Ay Dy p dy)))

/-- One spec-worded 2D step, with cell volume dx·dy. -/
def specStep2D (Ax Ay Dx Dy p : Mat) (dx dy dt : ℚ) : Mat :=
  let updated := mzip (· + ·) p (mmap (dt * ·) (specDpdt2D Ax Ay Dx Dy p dx dy))
  let clamped := mclamp0 updated
  mmap (· / (msum clamped * dx * dy)) clamped

lemma zipWith_add_map_neg (a b : List ℚ) :
    List.zipWith (· + ·) a (b.map Neg.neg) = List.zipWith (· - ·) a b := by
  rw [List.zipWith_map_right]
  congr 1
  funext u v
  exact (sub_eq_add_neg u v).symm

lemma zipWith_sub_map_neg (a b : List ℚ) :
    List.zipWith (· - ·) (a.map Neg.neg) b =
      (List.zipWith (· + ·) a b).map Neg.neg := by
  rw [List.zipWith_map_left, List.map_zipWith]
  congr 1
  funext u v
  rw [neg_add]
  exact (sub_eq_add_neg (-u) v)

lemma mzip_sub_mmap_neg (a b : Mat) :
    mzip (· - ·) (mmap Neg.neg a) b =
      mmap Neg.neg (mzip (· + ·) a b) := by
  unfold mzip mmap
  rw [List.zipWith_map_left, List.map_zipWith]
  congr 1
  funext r q
  exact zipWith_sub_map_neg r q

lemma dpdt1D_eq_spec (A D p : List ℚ) (dx : ℚ) :
    dpdt1D A D p dx = specDpdt1D A D p dx := by
  unfold dpdt1D specDpdt1D specFlux1D
  dsimp only
  rw [zipWith_add_map_neg]

lemma pNext1D_eq_spec (A D p : List ℚ) (dx dt : ℚ) :
    pNext1D A D p dx dt = specStep1D A D p dx dt := by
  unfold pNext1D clampNorm1D pClamped1D pUpdated1D specStep1D
  dsimp only
  rw [dpdt1D_eq_spec, sum_map_mul]

lemma dpdt2D_eq_spec (Ax Ay Dx Dy p : Mat) (dx dy : ℚ) :
    dpdt2D Ax Ay Dx Dy p dx dy = specDpdt2D Ax Ay Dx Dy p dx dy := by
  unfold dpdt2D specDpdt2D specFluxX specFluxY
  dsimp only
  rw [mzip_sub_mmap_neg]

lemma pNext2D_eq_spec (Ax Ay Dx Dy p : Mat) (dx dy dt : ℚ) :
    pNext2D Ax Ay Dx Dy p dx dy dt = specStep2D Ax Ay Dx Dy p dx dy dt := by
  unfold pNext2D clampNorm2D pClamped2D pUpdated2D specStep2D
  dsimp only
  rw [dpdt2D_eq_spec]

/-- C2: every completed step() of FokkerPlanck1D and FokkerPlanck2D
computes exactly the spec's pipeline: evaluate the drift and diffusion
fields on the grid; per-axis flux = drift·p minus the centered-difference
gradient (one-sided at the ends) of diffusion·p; dpdt = negative of the
sum over axes of each axis flux's gradient; p ← p + dt·dpdt;
p ← max(p, 0) elementwise; p ← p / (sum(p) · cell volume). -/
theorem claim_C2_step_pipeline :
    (∀ (s s' : FP1D), step1D s = .ok s' →
        s'.density = specStep1D (s.x.map s.A_func) (s.x.map s.D_func)
          s.density s.dx s.dt) ∧
    (∀ (s s' : FP2D), step2D s = .ok s' →
        s'.density = specStep2D (meshApply s.Ax_func s.X s.Y)
          (meshApply s.Ay_func s.X s.Y) (meshApply s.Dx_func s.X s.Y)
          (meshApply s.Dy_func s.X s.Y) s.density s.dx s.dy s.dt) := by
  constructor
  · intro s s' h
    obtain ⟨pi, hp, hl, rfl⟩ := step1D_ok_inv h
    have hden : s.density = s.heap.getD pi [] := by
      unfold FP1D.density; rw [hp]
    rw [stepResult1D_density, hden, pNext1D_eq_spec]
  · intro s s' h
    obtain ⟨pi, hp, hl, rfl⟩ := step2D_ok_inv h
    have hden : s.density = s.heap.getD pi [] := by
      unfold FP2D.density; rw [hp]
    rw [stepResult2D_density, hden, pNext2D_eq_spec]

theorem claim_C2_witness :
    c1wStep.density = specStep1D (c1wInit.x.map c1wInit.A_func)
      (c1wInit.x.map c1wInit.D_func) c1wInit.density c1wInit.dx c1wInit.dt ∧
    c1wStep2.density = specStep2D (meshApply c1wInit2.Ax_func c1wInit2.X c1wInit2.Y)
      (meshApply c1wInit2.Ay_func c1wInit2.X c1wInit2.Y)
      (meshApply c1wInit2.Dx_func c1wInit2.X c1wInit2.Y)
      (meshApply c1wInit2.Dy_func c1wInit2.X c1wInit2.Y)
      c1wInit2.density c1wInit2.dx c1wInit2.dy c1wInit2.dt :=
  ⟨claim_C2_step_pipeline.1 c1wInit c1wStep rfl,
   claim_C2_step_pipeline.2 c1wInit2 c1wStep2 rfl⟩

/-! ## Claims C10 and C8: frame and aliasing properties -/

/-- C10: step() never touches the recorded series: for both solvers, a
completed step() leaves the `snapshots` and `times` lists exactly as they
were (entries are appended only by solve()'s recording branch, and the
initial entry only by initialize()). -/
theorem claim_C10_step_frame :
    (∀ (s s' : FP1D), step1D s = .ok s' →
        s'.snapshots = s.snapshots ∧ s'.times = s.times) ∧
    (∀ (s s' : FP2D), step2D s = .ok s' →
        s'.snapshots = s.snapshots ∧ s'.times = s.times) := by
  constructor
  · intro s s' h
    obtain ⟨pi, hp, hl, rfl⟩ := step1D_ok_inv h
    exact ⟨rfl, rfl⟩
  · intro s s' h
    obtain ⟨pi, hp, hl, rfl⟩ := step2D_ok_inv h
    exact ⟨rfl, rfl⟩

theorem claim_C10_witness :
    (c1wStep.snapshots = c1wInit.snapshots ∧ c1wStep.times = c1wInit.times) ∧
    (c1wStep2.snapshots = c1wInit2.snapshots ∧
      c1wStep2.times = c1wInit2.times) :=
  ⟨claim_C10_step_frame.1 c1wInit c1wStep rfl,
   claim_C10_step_frame.2 c1wInit2 c1wStep2 rfl⟩

lemma stepResult1D_heapAt (s : FP1D) (pi j : ℕ) (hj : j < s.heap.length)
    (hne : j ≠ pi) :
    (stepResult1D s pi).heap.getD j [] = s.heap.getD j [] := by
  unfold stepResult1D
  dsimp only
  rw [getD_append_lt _ _ _ _ (by rw [List.length_set]; exact hj),
    getD_set_ne _ _ _ _ _ hne]

lemma stepResult1D_WF (s : FP1D) (pi : ℕ) (hWF : WF1D s) :
    WF1D (stepResult1D s pi) := by
  obtain ⟨hsnap, _⟩ := hWF
  constructor
  · intro j hj
    have hlt := hsnap j hj
    show j < ((s.heap.set pi _) ++ [_]).length
    rw [List.length_append, List.length_set]
    exact Nat.lt_succ_of_lt hlt
  · intro pj hpj
    have hpj' : pj = s.heap.length := by
      simpa [stepResult1D, Option.toList] using hpj
    subst hpj'
    constructor
    · show s.heap.length < ((s.heap.set pi _) ++ [_]).length
      rw [List.length_append, List.length_set]
      exact Nat.lt_succ_self _
    · intro j hj
      exact Nat.ne_of_lt (hsnap j hj)

/-- C8: snapshots are independent deep copies.  After initialize() the
heap is well-formed (no stored snapshot index aliases the live density),
and any number of completed step() calls — each of which mutates the live
array in place and allocates a fresh one — leaves the recorded snapshot
list and the contents of every recorded snapshot array unchanged. -/
theorem claim_C8_snapshot_copies :
    (∀ (gauss : ℚ → ℚ) (p0 : Option (List ℚ → List ℚ)) (s s0 : FP1D),
        initialize1D gauss p0 s = .ok s0 → WF1D s0) ∧
    (∀ (n : ℕ) (s s' : FP1D), WF1D s → stepN1D n s = .ok s' →
        s'.snapshots = s.snapshots ∧
        ∀ j ∈ s.snapshots, s'.heap.getD j [] = s.heap.getD j []) := by
  constructor
  · intro gauss p0 s s0 h
    rw [initialize1D_ok gauss p0 s s0 h]
    constructor
    · intro j hj
      simp only [List.mem_singleton] at hj
      subst hj
      show s.heap.length + 1 < (s.heap ++ [_, _]).length
      simp only [List.length_append, List.length_cons, List.length_nil]
      omega
    · intro pj hpj
      simp only [Option.toList, List.mem_singleton] at hpj
      subst hpj
      refine ⟨?_, ?_⟩
      · show s.heap.length < (s.heap ++ [_, _]).length
        simp only [List.length_append, List.length_cons, List.length_nil]
        omega
      · intro j hj
        simp only [List.mem_singleton] at hj
        omega
  · intro n
    induction n with
    | zero =>
        intro s s' _ h
        have hs : s = s' := Except.ok.inj h
        subst hs
        exact ⟨rfl, fun j _ => rfl⟩
    | succ n ih =>
        intro s s' hWF h
        rw [stepN1D] at h
        cases hstep : step1D s with
        | error e => rw [hstep] at h; exact Except.noConfusion h
        | ok s1 =>
            rw [hstep] at h
            obtain ⟨pi, hp, hl, hs1⟩ := step1D_ok_inv hstep
            have hWF1 : WF1D s1 := hs1 ▸ stepResult1D_WF s pi hWF
            obtain ⟨ihsnap, ihheap⟩ := ih s1 s' hWF1 h
            have hsnap1 : s1.snapshots = s.snapshots := by rw [hs1]; rfl
            refine ⟨by rw [ihsnap, hsnap1], ?_⟩
            intro j hj
            have hne : j ≠ pi ∧ j < s.heap.length := by
              obtain ⟨hsn, hpp⟩ := hWF
              have hm : pi ∈ s.p.toList := by
                rw [hp]; simp [Option.toList]
              exact ⟨(hpp pi hm).2 j hj, hsn j hj⟩
            have h1 : s1.heap.getD j [] = s.heap.getD j [] := by
              rw [hs1]
              exact stepResult1D_heapAt s pi j hne.2 hne.1
            rw [← h1]
            exact ihheap j (by rw [hsnap1]; exact hj)

def c8wAfter : FP1D := getOk1D fp1d0 (stepN1D 2 c1wInit)

theorem claim_C8_witness :
    WF1D c1wInit ∧ c8wAfter.snapshots = c1wInit.snapshots ∧
      ∀ j ∈ c1wInit.snapshots,
        c8wAfter.heap.getD j [] = c1wInit.heap.getD j [] :=
  ⟨claim_C8_snapshot_copies.1 (fun _ => 1) (some (fun _ => [1, 1]))
      c1wBase c1wInit rfl,
   (claim_C8_snapshot_copies.2 2 c1wInit c8wAfter
      (claim_C8_snapshot_copies.1 (fun _ => 1) (some (fun _ => [1, 1]))
        c1wBase c1wInit rfl) rfl).1,
   (claim_C8_snapshot_copies.2 2 c1wInit c8wAfter
      (claim_C8_snapshot_copies.1 (fun _ => 1) (some (fun _ => [1, 1]))
        c1wBase c1wInit rfl) rfl).2⟩

/-! ## Observations (decidable projections of run results) -/

def obsExc1D (r : Except PyExc FP1D) : Except PyExc Unit :=
  r.map (fun _ => ())

def obsExc2D (r : Except PyExc FP2D) : Except PyExc Unit :=
  r.map (fun _ => ())

def obsDensity1D (r : Except PyExc FP1D) : Except PyExc (List ℚ) :=
  r.map FP1D.density

/-! ## Claim C5: step()/solve() before initialize() -/

lemma step1D_uninit (s : FP1D) (hp : s.p = none) :
    step1D s = .error .typeError := by
  rw [step1D, hp]

/-- C5 (amended): calling step() or solve() before initialize() fails
with a TypeError — line 59 multiplies the drift array by the unset
density `None` — not with a dedicated UninitializedStateError (no such
class exists in the repository).  For solve() the same TypeError
surfaces from the first loop iteration (so nt ≥ 1). -/
theorem claim_C5_amended :
    ∀ (s : FP1D), s.p = none →
      step1D s = .error .typeError ∧
      (1 ≤ s.nt → solve1D s = .error .typeError) := by
  intro s hp
  refine ⟨step1D_uninit s hp, ?_⟩
  intro hnt
  obtain ⟨m, hm⟩ : ∃ m, s.nt = m + 1 := ⟨s.nt - 1, by omega⟩
  rw [solve1D, hm, List.range'_succ, solveLoop1D, step1D_uninit s hp]
  rfl

/-- C5 is false as stated: on a freshly constructed (uninitialized)
solver, step() and solve() do not raise UninitializedStateError — they
raise TypeError. -/
theorem claim_C5_counterexample :
    obsExc1D (step1D c1wBase) ≠ .error .uninitializedStateError ∧
    obsExc1D (solve1D c1wBase) ≠ .error .uninitializedStateError ∧
    obsExc1D (step1D c1wBase) = .error .typeError ∧
    obsExc1D (solve1D c1wBase) = .error .typeError :=
  ⟨by decide, by decide, by decide, by decide⟩

theorem claim_C5_witness :
    step1D c1wBase = .error .typeError ∧
    solve1D c1wBase = .error .typeError :=
  ⟨(claim_C5_amended c1wBase rfl).1,
   (claim_C5_amended c1wBase rfl).2 (by decide)⟩

/-! ## Claim C6: wrong-shape initial condition -/

lemma step1D_badlen (s : FP1D) (pi : ℕ) (hp : s.p = some pi)
    (h : (s.heap.getD pi []).length ≠ s.x.length) :
    step1D s = .error .valueError := by
  rw [step1D, hp]
  dsimp only
  rw [if_neg h]

lemma step2D_badshape (s : FP2D) (pi : ℕ) (hp : s.p = some pi)
    (h : ¬ shapeOK s.x.length s.y.length (s.heap.getD pi [])) :
    step2D s = .error .valueError := by
  rw [step2D, hp]
  dsimp only
  rw [if_neg h]

lemma length_clamp0 (l : List ℚ) : (clamp0 l).length = l.length :=
  List.length_map l _

lemma shapeOK_mmap (g : ℚ → ℚ) (m : Mat) (nx ny : ℕ) :
    shapeOK nx ny (mmap g m) ↔ shapeOK nx ny m := by
  unfold shapeOK mmap
  simp [List.mem_map]

/-- C6 (amended): initialize() performs no shape validation at all: a
user initial-condition function returning an array of the wrong shape is
accepted, clamped, normalized and stored without error, and the mismatch
only surfaces on the next step() as a numpy broadcast ValueError — no
ShapeMismatchError exists in the repository. -/
theorem claim_C6_amended :
    (∀ (gauss : ℚ → ℚ) (f : List ℚ → List ℚ) (s : FP1D),
        ∃ s0, initialize1D gauss (some f) s = .ok s0 ∧
          ((f s.x).length ≠ s.x.length → step1D s0 = .error .valueError)) ∧
    (∀ (gauss : ℚ → ℚ → ℚ) (f : Mat → Mat → Mat) (s : FP2D),
        ∃ s0, initialize2D gauss (some f) s = .ok s0 ∧
          (¬ shapeOK s.x.length s.y.length (f s.X s.Y) →
            step2D s0 = .error .valueError)) := by
  constructor
  · intro gauss f s
    refine ⟨_, rfl, ?_⟩
    intro hne
    apply step1D_badlen _ s.heap.length rfl
    show (((s.heap ++ [_, _]).getD s.heap.length []).length ≠ _)
    rw [getD_append_self]
    show ((initPre1D gauss (some f) s).map
      (· / initNorm1D gauss (some f) s)).length ≠ s.x.length
    rw [List.length_map]
    show (clamp0 (f s.x)).length ≠ s.x.length
    rw [length_clamp0]
    exact hne
  · intro gauss f s
    refine ⟨_, rfl, ?_⟩
    intro hne
    apply step2D_badshape _ s.heap.length rfl
    show ¬ shapeOK s.x.length s.y.length ((s.heap ++ [_, _]).getD s.heap.length [])
    rw [getD_append_self]
    show ¬ shapeOK s.x.length s.y.length
      (mmap (· / initNorm2D gauss (some f) s) (initPre2D gauss (some f) s))
    rw [shapeOK_mmap]
    show ¬ shapeOK s.x.length s.y.length (mclamp0 (f s.X s.Y))
    unfold mclamp0
    rw [shapeOK_mmap]
    exact hne

/-- C6 is false as stated: a wrong-shape initial condition ([1] on a
2-point grid) makes initialize() complete without any exception — no
ShapeMismatchError is raised before stepping; the very next step() fails
with a broadcast ValueError instead. -/
theorem claim_C6_counterexample :
    obsExc1D (initialize1D (fun _ => 1) (some (fun _ => [1])) c1wBase) =
      .ok () ∧
    obsExc1D ((initialize1D (fun _ => 1) (some (fun _ => [1]))
      c1wBase).bind step1D) = .error .valueError :=
  ⟨by decide, by decide⟩

def c6wInit : FP1D :=
  getOk1D fp1d0 (initialize1D (fun _ => 1) (some (fun _ => [1])) c1wBase)

def c6wInit2 : FP2D :=
  getOk2D fp2d0 (initialize2D (fun _ _ => 1) (some (fun _ _ => [[1]]))
    c1wBase2)

theorem claim_C6_witness :
    (initialize1D (fun _ => 1) (some (fun _ => [1])) c1wBase = .ok c6wInit ∧
      step1D c6wInit = .error .valueError) ∧
    (initialize2D (fun _ _ => 1) (some (fun _ _ => [[1]])) c1wBase2 =
        .ok c6wInit2 ∧
      step2D c6wInit2 = .error .valueError) := by
  obtain ⟨s0, h1, h2⟩ :=
    claim_C6_amended.1 (fun _ => 1) (fun _ => [1]) c1wBase
  obtain ⟨s2, g1, g2⟩ :=
    claim_C6_amended.2 (fun _ _ => 1) (fun _ _ => [[1]]) c1wBase2
  have hs : s0 = c6wInit := Except.ok.inj (h1.symm.trans rfl)
  have gs : s2 = c6wInit2 := Except.ok.inj (g1.symm.trans rfl)
  subst hs
  subst gs
  exact ⟨⟨h1, h2 (by decide)⟩, ⟨g1, g2 (by decide)⟩⟩

/-! ## Claim C7: constructor validation -/

/-- C7 (amended): constructing a solver with spatial resolution below 2
on any axis raises IndexError (the spacing computation x[1]-x[0] indexes
past the end of the coordinate array) — not a ConfigurationError, which
does not exist in the repository; and non-positive dt or nt raise
nothing at all: construction succeeds for every dt and nt whenever every
resolution is at least 2. -/
theorem claim_C7_amended :
    (∀ (A D : ℚ → ℚ) (x_min x_max : ℚ) (nx : ℕ) (dt : ℚ) (nt se : ℕ),
        nx < 2 → mk1D A D x_min x_max nx dt nt se = .error .indexError) ∧
    (∀ (A D : ℚ → ℚ) (x_min x_max : ℚ) (nx : ℕ) (dt : ℚ) (nt se : ℕ),
        2 ≤ nx → ∃ s, mk1D A D x_min x_max nx dt nt se = .ok s) ∧
    (∀ (Ax Ay Dx Dy : ℚ → ℚ → ℚ) (xm xM : ℚ) (nx : ℕ) (ym yM : ℚ)
        (ny : ℕ) (dt : ℚ) (nt se : ℕ), nx < 2 ∨ ny < 2 →
        mk2D Ax Ay Dx Dy xm xM nx ym yM ny dt nt se = .error .indexError) ∧
    (∀ (Ax Ay Dx Dy : ℚ → ℚ → ℚ) (xm xM : ℚ) (nx : ℕ) (ym yM : ℚ)
        (ny : ℕ) (dt : ℚ) (nt se : ℕ), 2 ≤ nx → 2 ≤ ny →
        ∃ s, mk2D Ax Ay Dx Dy xm xM nx ym yM ny dt nt se = .ok s) := by
  refine ⟨?_, ?_, ?_, ?_⟩
  · intro A D xm xM nx dt nt se h
    rw [mk1D]
    rw [if_neg (by omega)]
  · intro A D xm xM nx dt nt se h
    rw [mk1D]
    rw [if_pos h]
    exact ⟨_, rfl⟩
  · intro Ax Ay Dx Dy xm xM nx ym yM ny dt nt se h
    rw [mk2D]
    rw [if_neg (by omega)]
  · intro Ax Ay Dx Dy xm xM nx ym yM ny dt nt se h1 h2
    rw [mk2D]
    rw [if_pos ⟨h1, h2⟩]
    exact ⟨_, rfl⟩

/-- C7 is false as stated: nx = 1 raises IndexError, not the claimed
ConfigurationError, and a non-positive time step (dt = -1) together with
nt = 0 is accepted without any error. -/
theorem claim_C7_counterexample :
    obsExc1D (mk1D (fun _ => 0) (fun _ => 0) 0 1 1 1 1 1) =
      .error .indexError ∧
    obsExc1D (mk1D (fun _ => 0) (fun _ => 0) 0 1 1 1 1 1) ≠
      .error .configurationError ∧
    obsExc1D (mk1D (fun _ => 0) (fun _ => 0) 0 1 3 (-1) 0 1) = .ok () :=
  ⟨by decide, by decide, by decide⟩

theorem claim_C7_witness :
    mk1D (fun _ => 0) (fun _ => 0) 0 1 1 1 1 1 = .error .indexError ∧
    (∃ s, mk1D (fun _ => 0) (fun _ => 0) 0 1 2 (-1) 0 1 = .ok s) ∧
    mk2D (fun _ _ => 0) (fun _ _ => 0) (fun _ _ => 0) (fun _ _ => 0)
      0 1 1 0 1 2 1 1 1 = .error .indexError ∧
    (∃ s, mk2D (fun _ _ => 0) (fun _ _ => 0) (fun _ _ => 0) (fun _ _ => 0)
      0 1 2 0 1 2 (-1) 0 1 = .ok s) :=
  ⟨claim_C7_amended.1 _ _ 0 1 1 1 1 1 (by omega),
   claim_C7_amended.2.1 _ _ 0 1 2 (-1) 0 1 (by omega),
   claim_C7_amended.2.2.1 _ _ _ _ 0 1 1 0 1 2 1 1 1 (Or.inl (by omega)),
   claim_C7_amended.2.2.2 _ _ _ _ 0 1 2 0 1 2 (-1) 0 1 (by omega) (by omega)⟩

/-! ## Claim C4: zero density after the clamp -/

def c1xInit : FP1D :=
  getOk1D fp1d0 ((mk1D (fun _ => 1) (fun _ => 0) 0 1 2 1 1 1).bind
    (initialize1D (fun _ => 1) (some (fun _ => [0, 1]))))

/-- C4: the claim is right and the code is wrong.  At the valid
configuration of `c1xInit` (drift 1, diffusion 0, dt = 1, density [0, 1])
one step's clamp zeroes the whole field; the source then divides by the
zero total mass with no check, completing silently with non-finite values
(NaN in float; 0 in this exact embedding) instead of raising the
NumericalInstabilityError that the spec demands — indeed step() raises
nothing at all here. -/
theorem claim_C4_zero_density_divide :
    pClamped1D (c1xInit.x.map c1xInit.A_func) (c1xInit.x.map c1xInit.D_func)
      c1xInit.density c1xInit.dx c1xInit.dt = [0, 0] ∧
    clampNorm1D (c1xInit.x.map c1xInit.A_func) (c1xInit.x.map c1xInit.D_func)
      c1xInit.density c1xInit.dx c1xInit.dt = 0 ∧
    obsDensity1D (step1D c1xInit) = .ok [0, 0] ∧
    obsExc1D (step1D c1xInit) = .ok () :=
  ⟨by decide, by decide, by decide, by decide⟩

/-! ## Claim C9: determinism -/

/-- C9: the solver is deterministic.  Two FokkerPlanck1D objects
constructed from identical arguments, taken through
initialize() → solve() → get_results(), produce identical results (the
embedding of the source is a pure function of its inputs: the source
contains no randomness, time, or I/O dependence). -/
theorem claim_C9_deterministic :
    ∀ (A D : ℚ → ℚ) (x_min x_max : ℚ) (nx : ℕ) (dt : ℚ) (nt se : ℕ)
      (gauss : ℚ → ℚ) (p0 : Option (List ℚ → List ℚ)) (s1 s2 : FP1D),
      mk1D A D x_min x_max nx dt nt se = .ok s1 →
      mk1D A D x_min x_max nx dt nt se = .ok s2 →
      ((initialize1D gauss p0 s1).bind solve1D).map get_results1D =
        ((initialize1D gauss p0 s2).bind solve1D).map get_results1D := by
  intro A D xm xM nx dt nt se gauss p0 s1 s2 h1 h2
  have hs : s1 = s2 := Except.ok.inj (h1.symm.trans h2)
  rw [hs]

theorem claim_C9_witness :
    ((initialize1D (fun _ => 1) (some (fun _ => [1, 1])) c1wBase).bind
        solve1D).map get_results1D =
      ((initialize1D (fun _ => 1) (some (fun _ => [1, 1])) c1wBase).bind
        solve1D).map get_results1D :=
  claim_C9_deterministic (fun _ => 0) (fun _ => 0) 0 1 2 1 1 1
    (fun _ => 1) (some (fun _ => [1, 1])) c1wBase c1wBase rfl rfl

/-! ## Claim C3: machinery for the solve loop -/

lemma npGradient_length (dx : ℚ) (f : List ℚ) :
    (npGradient dx f).length = f.length := by
  simp [npGradient]

lemma pNext1D_length (A D pA : List ℚ) (dx dt : ℚ)
    (hA : A.length = pA.length) (hD : D.length = pA.length) :
    (pNext1D A D pA dx dt).length = pA.length := by
  simp [pNext1D, pClamped1D, clamp0, pUpdated1D, dpdt1D,
    npGradient_length, List.length_zipWith, hA, hD]

/-- A state on which step() succeeds and keeps succeeding: the live
density exists, lives in the heap, and has the grid's length. -/
def good1D (s : FP1D) : Prop :=
  ∃ pi, s.p = some pi ∧ pi < s.heap.length ∧
    (s.heap.getD pi []).length = s.x.length

lemma step1D_ok (s : FP1D) (pi : ℕ) (hp : s.p = some pi)
    (hlen : (s.heap.getD pi []).length = s.x.length) :
    step1D s = .ok (stepResult1D s pi) := by
  rw [step1D, hp]
  dsimp only
  rw [if_pos hlen]

lemma stepResult1D_good (s : FP1D) (pi : ℕ)
    (hlen : (s.heap.getD pi []).length = s.x.length) :
    good1D (stepResult1D s pi) := by
  refine ⟨s.heap.length, rfl, ?_, ?_⟩
  · show s.heap.length < ((s.heap.set pi _) ++ [_]).length
    simp only [List.length_append, List.length_set, List.length_cons,
      List.length_nil]
    omega
  · have hgoal : ((stepResult1D s pi).density).length =
        (stepResult1D s pi).x.length := by
      rw [stepResult1D_density]
      show (pNext1D _ _ _ _ _).length = s.x.length
      rw [pNext1D_length]
      · exact hlen
      · rw [List.length_map, ← hlen]
      · rw [List.length_map, ← hlen]
    exact hgoal

lemma except_bind_ok {ε α β : Type} (a : α) (f : α → Except ε β) :
    (Except.ok a >>= f : Except ε β) = f a := rfl

lemma solveLoop1D_cons (s : FP1D) (t : ℕ) (ts : List ℕ) :
    solveLoop1D s (t :: ts) =
      step1D s >>= fun s1 => record1D t s1 >>= fun s2 => solveLoop1D s2 ts :=
  rfl

/-- The state after the recording branch of solve's loop body. -/
def recResult1D (t : ℕ) (s : FP1D) : FP1D :=
  { s with heap := s.heap ++ [s.density],
           snapshots := s.snapshots ++ [s.heap.length],
           times := s.times ++ [(t : ℚ) * s.dt] }

lemma record1D_ok_pos (t : ℕ) (s : FP1D) (hse : ¬ s.snapshot_every = 0)
    (ht : t % s.snapshot_every = 0) :
    record1D t s = .ok (recResult1D t s) := by
  rw [record1D, if_neg hse, if_pos ht]
  rfl

lemma record1D_ok_neg (t : ℕ) (s : FP1D) (hse : ¬ s.snapshot_every = 0)
    (ht : ¬ t % s.snapshot_every = 0) : record1D t s = .ok s := by
  rw [record1D, if_neg hse, if_neg ht]

lemma good1D_recAppend (t : ℕ) (s : FP1D) (hg : good1D s) :
    good1D (recResult1D t s) := by
  obtain ⟨pi, hp, hpi, hlen⟩ := hg
  refine ⟨pi, hp, ?_, ?_⟩
  · show pi < (s.heap ++ [s.density]).length
    rw [List.length_append]
    omega
  · show ((s.heap ++ [s.density]).getD pi []).length = s.x.length
    rw [getD_append_lt _ _ _ _ hpi]
    exact hlen

/-- Behaviour of the whole solve loop over the step indices
`range' t0 k`, from any state step() keeps succeeding on: the loop
completes, performs k steps, and appends one snapshot and one time
t·dt for exactly the indices t divisible by snapshot_every. -/
lemma solveLoop1D_spec :
    ∀ (k t0 : ℕ) (s : FP1D), 1 ≤ s.snapshot_every → good1D s →
      ∃ s', solveLoop1D s (List.range' t0 k) = .ok s' ∧
        good1D s' ∧
        s'.x = s.x ∧ s'.dt = s.dt ∧
        s'.snapshot_every = s.snapshot_every ∧ s'.nt = s.nt ∧
        s'.stepCount = s.stepCount + k ∧
        s'.snapshots.length = s.snapshots.length +
          ((List.range' t0 k).filter
            (fun t => t % s.snapshot_every = 0)).length ∧
        s'.times = s.times ++
          ((List.range' t0 k).filter
            (fun t => t % s.snapshot_every = 0)).map
            (fun t : ℕ => (t : ℚ) * s.dt) := by
  intro k
  induction k with
  | zero =>
      intro t0 s hse hg
      exact ⟨s, rfl, hg, rfl, rfl, rfl, rfl, rfl, by simp, by simp⟩
  | succ k ih =>
      intro t0 s hse hg
      obtain ⟨pi, hp, hpi, hlen⟩ := hg
      have hse0 : ¬ s.snapshot_every = 0 := by omega
      have hg1 : good1D (stepResult1D s pi) := stepResult1D_good s pi hlen
      rw [List.range'_succ, solveLoop1D_cons, step1D_ok s pi hp hlen,
        except_bind_ok]
      by_cases ht : t0 % s.snapshot_every = 0
      · rw [record1D_ok_pos t0 (stepResult1D s pi) hse0 ht, except_bind_ok]
        obtain ⟨s', hrun, hg', hx, hdt, hsev, hnt, hcnt, hsnap, htimes⟩ :=
          ih (t0 + 1) (recResult1D t0 (stepResult1D s pi)) hse
            (good1D_recAppend t0 _ hg1)
        have hsev2 : (recResult1D t0 (stepResult1D s pi)).snapshot_every =
            s.snapshot_every := rfl
        have hdt2 : (recResult1D t0 (stepResult1D s pi)).dt = s.dt := rfl
        rw [hsev2] at hsnap htimes
        rw [hdt2] at htimes
        have hsnaplen : (recResult1D t0 (stepResult1D s pi)).snapshots.length
            = s.snapshots.length + 1 := by
          show ((stepResult1D s pi).snapshots ++ [_]).length = _
          rw [List.length_append]
          rfl
        have htimes2 : (recResult1D t0 (stepResult1D s pi)).times =
            s.times ++ [(t0 : ℚ) * s.dt] := rfl
        have hcnt2 : (recResult1D t0 (stepResult1D s pi)).stepCount =
            s.stepCount + 1 := rfl
        refine ⟨s', hrun, hg', hx, hdt, hsev, hnt, ?_, ?_, ?_⟩
        · rw [hcnt, hcnt2]
          omega
        · rw [hsnap, hsnaplen, List.filter_cons_of_pos (by simpa using ht),
            List.length_cons]
          omega
        · rw [htimes, htimes2, List.filter_cons_of_pos (by simpa using ht),
            List.map_cons, List.append_assoc]
          rfl
      · rw [record1D_ok_neg t0 (stepResult1D s pi) hse0 ht, except_bind_ok]
        obtain ⟨s', hrun, hg', hx, hdt, hsev, hnt, hcnt, hsnap, htimes⟩ :=
          ih (t0 + 1) (stepResult1D s pi) hse hg1
        have hcnt2 : (stepResult1D s pi).stepCount = s.stepCount + 1 := rfl
        refine ⟨s', hrun, hg', hx, hdt, hsev, hnt, ?_, ?_, ?_⟩
        · rw [hcnt, hcnt2]
          omega
        · rw [hsnap, List.filter_cons_of_neg (by simpa using ht)]
          rfl
        · rw [htimes, List.filter_cons_of_neg (by simpa using ht)]
          rfl

/-- The step indices in [1, n] at which solve() records are exactly the
positive multiples of snapshot_every up to n. -/
lemma filter_mod_range' (se : ℕ) (_hse : 1 ≤ se) :
    ∀ n : ℕ, (List.range' 1 n).filter (fun t => t % se = 0) =
      (List.range' 1 (n / se)).map (fun k => k * se) := by
  intro n
  induction n with
  | zero => simp
  | succ n ih =>
      have h1n : 1 + 1 * n = n + 1 := by omega
      rw [List.range'_concat, h1n, List.filter_append, ih]
      by_cases hd : se ∣ (n + 1)
      · have hmod : (n + 1) % se = 0 := Nat.mod_eq_zero_of_dvd hd
        have hsd : (n + 1) / se = n / se + 1 := Nat.succ_div_of_dvd hd
        have hv : (n / se + 1) * se = n + 1 := by
          rw [← hsd]
          exact Nat.div_mul_cancel hd
        have h1q : 1 + 1 * (n / se) = n / se + 1 := by omega
        rw [hsd, List.range'_concat, h1q, List.map_append]
        congr 1
        simp [hmod, hv]
      · have hmod : ¬ (n + 1) % se = 0 :=
          fun h => hd (Nat.dvd_of_mod_eq_zero h)
        have hsd : (n + 1) / se = n / se := Nat.succ_div_of_not_dvd hd
        rw [hsd]
        simp [hmod]

lemma times_closed_form (q se : ℕ) (dt : ℚ) :
    (0 : ℚ) :: (List.range' 1 q).map (fun k : ℕ => ((k * se : ℕ) : ℚ) * dt) =
      (List.range (q + 1)).map (fun k : ℕ => ((k * se : ℕ) : ℚ) * dt) := by
  rw [List.range_eq_range', List.range'_succ, List.map_cons]
  norm_num

lemma initialize1D_good (gauss : ℚ → ℚ) (p0 : Option (List ℚ → List ℚ))
    (s s0 : FP1D) (h : initialize1D gauss p0 s = .ok s0)
    (hp0 : ∀ f, p0 = some f → (f s.x).length = s.x.length) :
    good1D s0 := by
  rw [initialize1D_ok gauss p0 s s0 h]
  refine ⟨s.heap.length, rfl, ?_, ?_⟩
  · show s.heap.length < (s.heap ++ [_, _]).length
    simp only [List.length_append, List.length_cons, List.length_nil]
    omega
  · show ((s.heap ++ [_, _]).getD s.heap.length []).length = s.x.length
    rw [getD_append_self, List.length_map]
    cases hp : p0 with
    | none =>
        show (s.x.map gauss).length = s.x.length
        exact List.length_map _ _
    | some f =>
        show (clamp0 (f s.x)).length = s.x.length
        rw [length_clamp0]
        exact hp0 f hp

/-- C3 (amended): for every configuration with nt ≥ 1, snapshot_every ≥ 1
and — as forced by the counterexample, since the constructor accepts any
dt — a positive time step dt > 0, after initialize() (with an initial
condition of the grid's length, if user-supplied) followed by solve():
the snapshot series has length exactly 1 + floor(nt / snapshot_every),
the k-th recorded time equals k·snapshot_every·dt, the time sequence is
strictly increasing starting at 0, and solve() invokes step() exactly nt
times (the ghost step counter, 0 after initialize(), ends at nt). -/
theorem claim_C3_amended :
    ∀ (A D : ℚ → ℚ) (xm xM : ℚ) (nx : ℕ) (dt : ℚ) (nt se : ℕ)
      (gauss : ℚ → ℚ) (p0 : Option (List ℚ → List ℚ)) (s s0 : FP1D),
      mk1D A D xm xM nx dt nt se = .ok s →
      initialize1D gauss p0 s = .ok s0 →
      (∀ f, p0 = some f → (f s.x).length = s.x.length) →
      1 ≤ nt → 1 ≤ se → 0 < dt →
      ∃ s', solve1D s0 = .ok s' ∧
        s'.snapshots.length = 1 + nt / se ∧
        s'.times.length = 1 + nt / se ∧
        (∀ k (hk : k < s'.times.length),
            s'.times.get ⟨k, hk⟩ = (k : ℚ) * (se : ℚ) * dt) ∧
        s'.times.Pairwise (· < ·) ∧
        s'.stepCount = nt := by
  intro A D xm xM nx dt nt se gauss p0 s s0 hmk hinit hp0 hnt hse hdt
  rw [mk1D] at hmk
  by_cases h2 : 2 ≤ nx
  · rw [if_pos h2] at hmk
    have hs := Except.ok.inj hmk
    have hgood : good1D s0 := initialize1D_good gauss p0 s s0 hinit hp0
    have hfields := initialize1D_ok gauss p0 s s0 hinit
    have hsnt : s0.nt = nt := by rw [hfields, ← hs]
    have hsse : s0.snapshot_every = se := by rw [hfields, ← hs]
    have hsdt : s0.dt = dt := by rw [hfields, ← hs]
    have hstimes : s0.times = [0] := by rw [hfields]
    have hssnaps : s0.snapshots.length = 1 := by rw [hfields]; rfl
    have hscnt : s0.stepCount = 0 := by rw [hfields, ← hs]
    obtain ⟨s', hrun, _, _, _, _, _, hcnt, hsnap, htimes⟩ :=
      solveLoop1D_spec s0.nt 1 s0 (by rw [hsse]; exact hse) hgood
    rw [hsse] at hsnap htimes
    rw [hsdt] at htimes
    rw [hsnt] at hrun hcnt hsnap htimes
    have hfilter := filter_mod_range' se hse nt
    rw [hfilter, List.map_map] at htimes
    rw [hfilter, List.length_map] at hsnap
    have htimes' : s'.times =
        (List.range (nt / se + 1)).map
          (fun k : ℕ => ((k * se : ℕ) : ℚ) * dt) := by
      rw [htimes, hstimes]
      have hcomp :
          ((fun t : ℕ => (t : ℚ) * dt) ∘ fun k : ℕ => k * se) =
            fun k : ℕ => ((k * se : ℕ) : ℚ) * dt := rfl
      rw [hcomp]
      exact times_closed_form (nt / se) se dt
    refine ⟨s', by rw [solve1D, hsnt]; exact hrun, ?_, ?_, ?_, ?_, ?_⟩
    · rw [hsnap, hssnaps, List.length_range']
    · rw [htimes', List.length_map, List.length_range]
      omega
    · intro k hk
      rw [List.get_eq_getElem]
      simp only [htimes']
      rw [List.getElem_map, List.getElem_range]
      push_cast
      ring
    · rw [htimes']
      rw [List.pairwise_map]
      refine (List.pairwise_lt_range (nt / se + 1)).imp ?_
      intro a b hab
      have hmul : a * se < b * se :=
        Nat.mul_lt_mul_of_lt_of_le hab le_rfl (by omega)
      have hcast : ((a * se : ℕ) : ℚ) < ((b * se : ℕ) : ℚ) := by
        exact_mod_cast hmul
      exact mul_lt_mul_of_pos_right hcast hdt
    · rw [hcnt, hscnt]
      omega
  · rw [if_neg h2] at hmk
    exact absurd hmk (by simp)

def obsTimes1D (r : Except PyExc FP1D) : Except PyExc (List ℚ) :=
  r.map (fun s => s.times)

/-- C3 is false as stated: the constructor accepts dt = 0 (there is no
validation), and with nt = 2 ≥ 1, snapshot_every = 1 ≥ 1 the recorded
time sequence after solve() is [0, 0, 0] — not strictly increasing. -/
theorem claim_C3_counterexample :
    obsTimes1D (((mk1D (fun _ => 0) (fun _ => 0) 0 1 2 0 2 1).bind
        (initialize1D (fun _ => 1) (some (fun _ => [1, 1])))).bind
        solve1D) = .ok [0, 0, 0] ∧
    ¬ ([(0 : ℚ), 0, 0].Pairwise (· < ·)) :=
  ⟨by decide, by decide⟩

def c3wBase : FP1D :=
  getOk1D fp1d0 (mk1D (fun _ => 0) (fun _ => 0) 0 1 2 1 2 1)

def c3wInit : FP1D :=
  getOk1D fp1d0 (initialize1D (fun _ => 1) (some (fun _ => [1, 1])) c3wBase)

theorem claim_C3_witness :
    ∃ s', solve1D c3wInit = .ok s' ∧
      s'.snapshots.length = 1 + 2 / 1 ∧
      s'.times.length = 1 + 2 / 1 ∧
      (∀ k (hk : k < s'.times.length),
          s'.times.get ⟨k, hk⟩ = (k : ℚ) * ((1 : ℕ) : ℚ) * 1) ∧
      s'.times.Pairwise (· < ·) ∧
      s'.stepCount = 2 :=
  claim_C3_amended (fun _ => 0) (fun _ => 0) 0 1 2 1 2 1 (fun _ => 1)
    (some (fun _ => [1, 1])) c3wBase c3wInit rfl rfl
    (by intro f hf; cases hf; decide) (by decide) (by decide) (by decide)

end FokkerPlanck
